import Mathlib

/-
Verification of the OpenJeopardy game-session core (src/src/main.rs) against
its natural-language specification.

The embedding translates the in-memory session model and the request
handlers of main.rs into pure Lean functions.  HTTP transport, HTML
templating and file I/O are the glue the spec excludes; the handlers are
embedded from the point where they touch the shared session state.

Machine integers are modelled with release-profile semantics: u8 and i32
arithmetic wraps (Nat and Int with explicit reduction mod 256 resp. 2^32).
Rust panics (unchecked Vec indexing) are modelled as the value none.
-/

namespace OpenJeopardy

/-- Task variant of an answer cell (main.rs lines 130-134). -/
inductive Task
  | Picture (link : String)
  | Text (text : String)
deriving DecidableEq

/-- Result of one graded attempt (main.rs lines 167-172); the payload is
the u16 point value in effect when the grading happened. -/
inductive AnswerResult
  | positive (points : Nat)
  | negative (points : Nat)
  | neutral
deriving DecidableEq

/-- One recorded attempt (main.rs lines 161-165). -/
structure Try where
  player : String
  try_result : AnswerResult
deriving DecidableEq

/-- One answer cell (main.rs lines 121-128); points is a u16. -/
structure Answer where
  task : Task
  points : Nat
  double : Bool
  tries : Option (List Try)
deriving DecidableEq

/-- One category (main.rs lines 115-119). -/
structure Category where
  name : String
  answers : List Answer
deriving DecidableEq

/-- The board (main.rs lines 108-113); active_player is a serde-skipped
field that no handler ever reads or writes. -/
structure Answers where
  categories : List Category
  active_player : Option Nat
deriving DecidableEq

/-- Rating sent by the admin in an answer query (main.rs lines 136-142). -/
inductive Rating
  | positive
  | neutral
  | negative
deriving DecidableEq

/-- A registered player (main.rs lines 150-154); points is an i32. -/
structure Player where
  name : String
  points : Int
deriving DecidableEq

/-- Session status (main.rs lines 174-177). -/
inductive Status
  | Registration
  | BuzzerActive
deriving DecidableEq

/-- Query accepted by the admin endpoint (main.rs lines 101-106); the
integers are u8 values. -/
structure AdminQuery where
  setstate : Option Nat
  reset : Option Bool
  player : Option Nat
deriving DecidableEq

/-- The process-wide session state: the app_data cells handed to every
handler in main (main.rs lines 194-205). -/
structure GameState where
  status : Status
  ip_cache : List (String × String)
  answers : Answers
  players : List Player
  active_player : Nat
deriving DecidableEq

/-- Two-complement wrap of an i32 value (release-profile overflow). -/
def wrap32 (x : Int) : Int :=
  (x + 2147483648) % 4294967296 - 2147483648

/-- In-place update of the list element at index i; out-of-range indices
leave the list unchanged (used only at validated indices). -/
def modifyAt (l : List α) (i : Nat) (f : α → α) : List α :=
  match l, i with
  | [], _ => []
  | x :: xs, 0 => f x :: xs
  | x :: xs, Nat.succ i => x :: modifyAt xs i f

/-- Moka cache insert (main.rs line 233): the new mapping shadows any
previous mapping for the same key. -/
def cacheInsert (cache : List (String × String)) (key value : String) :
    List (String × String) :=
  (key, value) :: cache

/-- Moka cache lookup (main.rs line 250). -/
def cacheGet (cache : List (String × String)) (key : String) : Option String :=
  (cache.find? (fun e => e.fst == key)).map Prod.snd

/-- Character class of the IS_VALID_NAME regex [0-9a-zA-Z_-]
(main.rs line 84). -/
def isNameChar (ch : Char) : Bool :=
  ch.isDigit || ch.isAlpha || ch = '_' || ch = '-'

/-- The IS_VALID_NAME check: regex is one or more allowed characters,
anchored at both ends (main.rs line 84). -/
def is_valid_name (s : String) : Bool :=
  !s.data.isEmpty && s.data.all isNameChar

/-- Errors the register handler reports to the caller
(main.rs lines 220-232). -/
inductive RegisterError
  | GameNotJoinable
  | InvalidName
deriving DecidableEq

/-- The register handler core (main.rs lines 218-242): status gate, name
check, cache insert, append of a fresh player with score 0.  The ip
argument is the already-resolved peer address. -/
def register (status : Status) (cache : List (String × String))
    (players : List Player) (ip name : String) :
    Except RegisterError (List (String × String) × List Player) :=
  match status with
  | Status.BuzzerActive => Except.error RegisterError.GameNotJoinable
  | Status.Registration =>
    if !is_valid_name name then Except.error RegisterError.InvalidName
    else Except.ok (cacheInsert cache ip name,
                    players ++ [{ name := name, points := 0 }])

/-- Outcome of the buzz handler (main.rs lines 244-256). -/
inductive BuzzOutcome
  | NotRegistered
  | RedirectBuzzer (name : String)
deriving DecidableEq

/-- The buzz handler (main.rs lines 244-256): it receives only the ip
cache from the app data; the session status is not among its inputs. -/
def buzz (s : GameState) (ip : String) : BuzzOutcome :=
  match cacheGet s.ip_cache ip with
  | none => BuzzOutcome.NotRegistered
  | some name => BuzzOutcome.RedirectBuzzer name

/-- Lookup of the answer cell hit by a query (main.rs line 276); none
models the Rust index-out-of-bounds panic of the unchecked indexing. -/
def lookupAnswer (answers : Answers) (c a : Nat) : Option Answer :=
  answers.categories[c]?.bind (fun cat => cat.answers[a]?)

/-- Rewrite of the answer cell at a validated index pair
(the repeated answers.categories[c].answers[a] mutations). -/
def updateAnswer (answers : Answers) (c a : Nat) (f : Answer → Answer) :
    Answers :=
  { answers with
      categories :=
        modifyAt answers.categories c
          (fun cat => { cat with answers := modifyAt cat.answers a f }) }

/-- Push of one attempt onto the tries of an answer cell, creating the
vector when absent (main.rs lines 311-322). -/
def appendTry (answers : Answers) (c a : Nat) (t : Try) : Answers :=
  updateAnswer answers c a
    (fun an => { an with tries := some (an.tries.getD [] ++ [t]) })

/-- Point-value override (main.rs lines 324-326). -/
def setPoints (answers : Answers) (c a : Nat) (v : Nat) : Answers :=
  updateAnswer answers c a (fun an => { an with points := v })

/-- The attempt outcome mirroring a rating at the current point value
(main.rs lines 314-318). -/
def mirrorRating (r : Rating) (pts : Nat) : AnswerResult :=
  match r with
  | Rating.positive => AnswerResult.positive pts
  | Rating.neutral => AnswerResult.neutral
  | Rating.negative => AnswerResult.negative pts

/-- Score mutation and attempt-name resolution for one grading
(main.rs lines 294-310).  Out of range: a placeholder label is built from
the u8 increment of the id (wrapping at 255) and no score changes.
In range: the score receives the i32 delta and the name is read back from
the mutated list. -/
def applyRating (players : List Player) (activeId pts : Nat) (r : Rating) :
    List Player × String :=
  if players.length ≤ activeId then
    (players, "UNKNOWN No." ++ toString ((activeId + 1) % 256))
  else
    match r with
    | Rating.positive =>
      let players2 := modifyAt players activeId
        (fun p => { p with points := wrap32 (p.points + (pts : Int)) })
      (players2, ((players2[activeId]?.map Player.name).getD ""))
    | Rating.negative =>
      let players2 := modifyAt players activeId
        (fun p => { p with points := wrap32 (p.points - (pts : Int)) })
      (players2, ((players2[activeId]?.map Player.name).getD ""))
    | Rating.neutral =>
      (players, ((players[activeId]?.map Player.name).getD ""))

/-- Display string of a revealed answer (main.rs lines 278-288). -/
def taskContent (ans : Answer) : String :=
  (match ans.task with
   | Task.Text text => text
   | Task.Picture link => link) ++
  (if ans.double then " (DOUBLE)" else "")

/-- Body of the answer handler once the cell lookup succeeded
(main.rs lines 278-328): reveal content, optional grading, then the
optional point-value override, in that order. -/
def answerCore (answers : Answers) (players : List Player)
    (activeId c a : Nat) (value : Option Nat) (rating : Option Rating)
    (ans : Answer) : Answers × List Player × String :=
  let content := taskContent ans
  let graded : Answers × List Player :=
    match rating with
    | none => (answers, players)
    | some r =>
      let pr := applyRating players activeId ans.points r
      (appendTry answers c a
        { player := pr.2, try_result := mirrorRating r ans.points }, pr.1)
  let final : Answers :=
    match value with
    | none => graded.1
    | some v => setPoints graded.1 c a v
  (final, graded.2, content)

/-- The answer handler core (main.rs lines 258-329) after the excluded
loopback check and template read: none models the panic of the unchecked
board indexing at line 276. -/
def get_answer (answers : Answers) (players : List Player)
    (activeId c a : Nat) (value : Option Nat) (rating : Option Rating) :
    Option (Answers × List Player × String) :=
  (lookupAnswer answers c a).map
    (answerCore answers players activeId c a value rating)

/-- State transition of the admin handler (main.rs lines 340-350): the
player field overwrites the active pointer, the setstate field maps 0 to
Registration and everything else to BuzzerActive.  The reset field of the
query is never consulted by the handler. -/
def adminUpdate (q : AdminQuery) (s : GameState) : GameState :=
  let s1 :=
    match q.player with
    | some pid => { s with active_player := pid }
    | none => s
  match q.setstate with
  | some code =>
    { s1 with
        status :=
          if code = 0 then Status.Registration else Status.BuzzerActive }
  | none => s1

/-- Status code substituted into the admin page (main.rs lines 395-399). -/
def stateCode (st : Status) : Nat :=
  match st with
  | Status.Registration => 1
  | Status.BuzzerActive => 0

/-- Observation: score of the player at an index. -/
def scoreAt (players : List Player) (i : Nat) : Option Int :=
  players[i]?.map Player.points

/-- Observation: recorded attempts of an answer cell. -/
def triesAt (answers : Answers) (c a : Nat) : Option (List Try) :=
  (lookupAnswer answers c a).bind Answer.tries

/-- Observation: current point value of an answer cell. -/
def pointsAt (answers : Answers) (c a : Nat) : Option Nat :=
  (lookupAnswer answers c a).map Answer.points

/-- Signed score delta a rating applies at a given point value
(main.rs lines 300-308, stated as one function). -/
def ratingDelta (r : Rating) (pts : Nat) : Int :=
  match r with
  | Rating.positive => (pts : Int)
  | Rating.negative => -(pts : Int)
  | Rating.neutral => 0

/-- Concrete one-cell board used by the witnesses. -/
def ans1 : Answer :=
  { task := Task.Text "Q1", points := 100, double := false, tries := none }

/-- Concrete board wrapping ans1. -/
def board1 : Answers :=
  { categories := [{ name := "Cat1", answers := [ans1] }],
    active_player := none }

/-- Concrete player used by the witnesses. -/
def pA : Player := { name := "Alice", points := 0 }

/-- Concrete session state used by the witnesses. -/
def s0 : GameState :=
  { status := Status.Registration, ip_cache := [], answers := board1,
    players := [], active_player := 0 }

/-- Admin query that only carries a reset flag. -/
def qReset : AdminQuery :=
  { setstate := none, reset := some true, player := none }

/-- Admin query that only carries a setstate code. -/
def qSetState (code : Nat) : AdminQuery :=
  { setstate := some code, reset := none, player := none }

/-! Helper lemmas about the embedding. -/

theorem lt_of_getElem?_some {l : List α} {i : Nat} {x : α}
    (h : l[i]? = some x) : i < l.length := by
  induction l generalizing i with
  | nil => simp at h
  | cons y ys ih =>
    cases i with
    | zero => simp
    | succ j =>
      simp only [List.getElem?_cons_succ] at h
      exact Nat.succ_lt_succ (ih h)

theorem modifyAt_getElem?_self (l : List α) (i : Nat) (f : α → α) :
    (modifyAt l i f)[i]? = l[i]?.map f := by
  induction l generalizing i with
  | nil => cases i <;> rfl
  | cons x xs ih =>
    cases i with
    | zero => simp [modifyAt]
    | succ j =>
      simp only [modifyAt, List.getElem?_cons_succ]
      exact ih j

theorem modifyAt_getElem?_other (l : List α) (i j : Nat) (f : α → α)
    (h : j ≠ i) : (modifyAt l i f)[j]? = l[j]? := by
  induction l generalizing i j with
  | nil => cases i <;> rfl
  | cons x xs ih =>
    cases i with
    | zero =>
      cases j with
      | zero => exact absurd rfl h
      | succ k => rfl
    | succ i2 =>
      cases j with
      | zero => simp [modifyAt]
      | succ k =>
        simp only [modifyAt, List.getElem?_cons_succ]
        exact ih i2 k (fun he => h (by simpa using he))

theorem modifyAt_length (l : List α) (i : Nat) (f : α → α) :
    (modifyAt l i f).length = l.length := by
  induction l generalizing i with
  | nil => cases i <;> rfl
  | cons x xs ih => cases i <;> simp [modifyAt, ih]

theorem wrap32_eq_self {x : Int} (h1 : -2147483648 ≤ x)
    (h2 : x < 2147483648) : wrap32 x = x := by
  unfold wrap32
  omega

theorem lookupAnswer_updateAnswer (answers : Answers) (c a : Nat)
    (f : Answer → Answer) :
    lookupAnswer (updateAnswer answers c a f) c a =
      (lookupAnswer answers c a).map f := by
  unfold lookupAnswer updateAnswer
  simp only [modifyAt_getElem?_self]
  cases h : answers.categories[c]? with
  | none => rfl
  | some cat =>
    simp only [Option.map_some, Option.some_bind]
    exact modifyAt_getElem?_self cat.answers a f

theorem get_answer_eq_some (answers : Answers) (players : List Player)
    (activeId c a : Nat) (value : Option Nat) (rating : Option Rating)
    {ans : Answer} (h : lookupAnswer answers c a = some ans) :
    get_answer answers players activeId c a value rating =
      some (answerCore answers players activeId c a value rating ans) := by
  unfold get_answer
  rw [h]
  rfl

theorem applyRating_in_range (players : List Player) (i pts : Nat)
    (r : Rating) {p : Player} (hp : players[i]? = some p)
    (hlo : -2147483648 ≤ p.points - (pts : Int))
    (hhi : p.points + (pts : Int) < 2147483648) :
    (applyRating players i pts r).2 = p.name
    ∧ (applyRating players i pts r).1[i]? =
        some { p with points := p.points + ratingDelta r pts }
    ∧ (∀ j, j ≠ i → (applyRating players i pts r).1[j]? = players[j]?)
    ∧ (applyRating players i pts r).1.length = players.length := by
  have hlt : i < players.length := lt_of_getElem?_some hp
  have hnle : ¬ players.length ≤ i := Nat.not_le.mpr hlt
  have hv : (0 : Int) ≤ (pts : Int) := Int.natCast_nonneg pts
  cases r with
  | positive =>
    have hw : wrap32 (p.points + (pts : Int)) = p.points + (pts : Int) :=
      wrap32_eq_self (by omega) (by omega)
    refine ⟨?_, ?_, ?_, ?_⟩
    · simp [applyRating, hnle, modifyAt_getElem?_self, hp]
    · simp [applyRating, hnle, modifyAt_getElem?_self, hp, hw, ratingDelta]
    · intro j hj
      simp [applyRating, hnle, modifyAt_getElem?_other _ _ _ _ hj]
    · simp [applyRating, hnle, modifyAt_length]
  | negative =>
    have hw : wrap32 (p.points - (pts : Int)) = p.points - (pts : Int) :=
      wrap32_eq_self (by omega) (by omega)
    refine ⟨?_, ?_, ?_, ?_⟩
    · simp [applyRating, hnle, modifyAt_getElem?_self, hp]
    · simp [applyRating, hnle, modifyAt_getElem?_self, hp, hw, ratingDelta]
      omega
    · intro j hj
      simp [applyRating, hnle, modifyAt_getElem?_other _ _ _ _ hj]
    · simp [applyRating, hnle, modifyAt_length]
  | neutral =>
    refine ⟨?_, ?_, ?_, ?_⟩
    · simp [applyRating, hnle, hp]
    · simp [applyRating, hnle, hp, ratingDelta]
    · intro j hj
      simp [applyRating, hnle]
    · simp [applyRating, hnle]


theorem applyRating_out_of_range (players : List Player) (i pts : Nat)
    (r : Rating) (hle : players.length ≤ i) :
    applyRating players i pts r =
      (players, "UNKNOWN No." ++ toString ((i + 1) % 256)) := by
  simp [applyRating, hle]

theorem grade_step (answers : Answers) (players : List Player)
    (i c a : Nat) (r : Rating) {ans : Answer} {p : Player}
    (h : lookupAnswer answers c a = some ans)
    (hp : players[i]? = some p)
    (hlo : -2147483648 ≤ p.points - (ans.points : Int))
    (hhi : p.points + (ans.points : Int) < 2147483648) :
    get_answer answers players i c a none (some r) =
      some (appendTry answers c a
              { player := p.name, try_result := mirrorRating r ans.points },
            (applyRating players i ans.points r).1,
            taskContent ans)
    ∧ (applyRating players i ans.points r).1[i]? =
        some { p with points := p.points + ratingDelta r ans.points }
    ∧ (∀ j, j ≠ i →
        (applyRating players i ans.points r).1[j]? = players[j]?)
    ∧ lookupAnswer
        (appendTry answers c a
          { player := p.name, try_result := mirrorRating r ans.points }) c a =
        some { ans with
                 tries := some (ans.tries.getD [] ++
                   [{ player := p.name,
                      try_result := mirrorRating r ans.points }]) } := by
  obtain ⟨hname, hpt, hothers, hlen⟩ :=
    applyRating_in_range players i ans.points r hp hlo hhi
  refine ⟨?_, hpt, hothers, ?_⟩
  · rw [get_answer_eq_some answers players i c a none (some r) h]
    simp [answerCore, hname]
  · rw [appendTry, lookupAnswer_updateAnswer, h]
    rfl


/-! Claim theorems. -/

/-- Claim C1, code bug exhibit: the answer endpoint performs no bounds
check; whenever the index pair misses the board, the unchecked vector
indexing at main.rs line 276 panics, modelled as the none result.  The
embedded handler never produces an IndexOutOfRange request error, against
the claim that out-of-range access is reported to the caller as one. -/
theorem get_answer_out_of_range_panics (answers : Answers)
    (players : List Player) (activeId c a : Nat) (value : Option Nat)
    (rating : Option Rating) (h : lookupAnswer answers c a = none) :
    get_answer answers players activeId c a value rating = none := by
  unfold get_answer
  rw [h]
  rfl

/-- Witness for C1: category index 1 is out of range on the one-category
board, and the request outcome is the panic marker. -/
theorem get_answer_out_of_range_panics_witness :
    lookupAnswer board1 1 0 = none
    ∧ get_answer board1 [] 0 1 0 none none = none :=
  ⟨by decide, get_answer_out_of_range_panics board1 [] 0 1 0 none none
      (by decide)⟩

/-- Claim C2: for an in-range active player index, grading applies exactly
the rating delta to that player (positive adds the current point value of
the answer, negative subtracts it, neutral changes nothing), touches no
other score, and the recorded attempt carries that player current display
name. -/
theorem grade_in_range_effects (answers : Answers) (players : List Player)
    (i c a : Nat) (r : Rating) (ans : Answer) (p : Player)
    (h : lookupAnswer answers c a = some ans)
    (hp : players[i]? = some p)
    (hlo : -2147483648 ≤ p.points - (ans.points : Int))
    (hhi : p.points + (ans.points : Int) < 2147483648) :
    ∃ A2 P2 page,
      get_answer answers players i c a none (some r) = some (A2, P2, page)
      ∧ scoreAt P2 i = some (p.points + ratingDelta r ans.points)
      ∧ (∀ j, j ≠ i → scoreAt P2 j = scoreAt players j)
      ∧ triesAt A2 c a =
          some (ans.tries.getD [] ++
            [{ player := p.name,
               try_result := mirrorRating r ans.points }]) := by
  obtain ⟨heq, hpt, hothers, hlook⟩ :=
    grade_step answers players i c a r h hp hlo hhi
  refine ⟨_, _, _, heq, ?_, ?_, ?_⟩
  · simp only [scoreAt, hpt]
    rfl
  · intro j hj
    simp only [scoreAt, hothers j hj]
  · simp only [triesAt, hlook, Option.some_bind]

/-- Witness for C2: grading the sample player positively on the sample
board awards the 100 points of the cell and records the attempt. -/
theorem grade_in_range_effects_witness :
    ∃ A2 P2 page,
      get_answer board1 [pA] 0 0 0 none (some Rating.positive) =
        some (A2, P2, page)
      ∧ scoreAt P2 0 =
          some (pA.points + ratingDelta Rating.positive ans1.points)
      ∧ (∀ j, j ≠ 0 → scoreAt P2 j = scoreAt [pA] j)
      ∧ triesAt A2 0 0 =
          some (ans1.tries.getD [] ++
            [{ player := pA.name,
               try_result := mirrorRating Rating.positive ans1.points }]) :=
  grade_in_range_effects board1 [pA] 0 0 0 Rating.positive ans1 pA
    (by decide) (by decide) (by decide) (by decide)


/-- Counterexample to claim C3 as stated: with active index 255 and an
empty registry, the u8 increment of the id wraps, and the recorded
placeholder label is UNKNOWN No.0 instead of the UNKNOWN No.256 the claim
prescribes for index 255. -/
theorem grade_unknown_label_wraps_at_255 :
    (get_answer board1 [] 255 0 0 none (some Rating.positive)).map
        (fun res => triesAt res.1 0 0) =
      some (some [{ player := "UNKNOWN No.0",
                    try_result := AnswerResult.positive 100 }])
    ∧ "UNKNOWN No.0" ≠ "UNKNOWN No.256" :=
  ⟨by decide, by decide⟩

/-- Claim C3 amended: grading with an out-of-range active player index
leaves the whole registry unchanged and still appends an attempt whose
player name is UNKNOWN No.(index + 1) computed in u8 arithmetic, that is
(index + 1) mod 256: every index below 255 gets the label of the claim,
index 255 wraps to UNKNOWN No.0. -/
theorem grade_out_of_range_placeholder (answers : Answers)
    (players : List Player) (activeId c a : Nat) (r : Rating) (ans : Answer)
    (h : lookupAnswer answers c a = some ans)
    (hoob : players.length ≤ activeId) :
    ∃ A2 page,
      get_answer answers players activeId c a none (some r) =
        some (A2, players, page)
      ∧ triesAt A2 c a =
          some (ans.tries.getD [] ++
            [{ player := "UNKNOWN No." ++ toString ((activeId + 1) % 256),
               try_result := mirrorRating r ans.points }]) := by
  have happ := applyRating_out_of_range players activeId ans.points r hoob
  refine ⟨appendTry answers c a
      { player := "UNKNOWN No." ++ toString ((activeId + 1) % 256),
        try_result := mirrorRating r ans.points }, taskContent ans, ?_, ?_⟩
  · rw [get_answer_eq_some answers players activeId c a none (some r) h]
    simp [answerCore, happ]
  · simp only [triesAt, appendTry, lookupAnswer_updateAnswer, h]
    rfl

/-- Witness for the amended C3: index 2 on a one-player registry gets the
label UNKNOWN No.3 and the registry is returned unchanged. -/
theorem grade_out_of_range_placeholder_witness :
    ∃ A2 page,
      get_answer board1 [pA] 2 0 0 none (some Rating.neutral) =
        some (A2, [pA], page)
      ∧ triesAt A2 0 0 =
          some (ans1.tries.getD [] ++
            [{ player := "UNKNOWN No." ++ toString ((2 + 1) % 256),
               try_result := mirrorRating Rating.neutral ans1.points }]) :=
  grade_out_of_range_placeholder board1 [pA] 2 0 0 Rating.neutral ans1
    (by decide) (by decide)

/-- Bounds of the signed delta of one rating. -/
theorem ratingDelta_bounds (r : Rating) (pts : Nat) :
    -(pts : Int) ≤ ratingDelta r pts ∧ ratingDelta r pts ≤ (pts : Int) := by
  cases r <;> simp only [ratingDelta] <;> omega

/-- Claim C4: grading is not idempotent — a second grading of the same
answer appends a second attempt to its history and applies its score
delta a second time, purely additively. -/
theorem grade_twice_accumulates (answers : Answers) (players : List Player)
    (i c a : Nat) (r1 r2 : Rating) (ans : Answer) (p : Player)
    (h : lookupAnswer answers c a = some ans)
    (hp : players[i]? = some p)
    (hlo : -2147483648 ≤ p.points - 2 * (ans.points : Int))
    (hhi : p.points + 2 * (ans.points : Int) < 2147483648) :
    ∃ A1 P1 pg1 A2 P2 pg2,
      get_answer answers players i c a none (some r1) = some (A1, P1, pg1)
      ∧ get_answer A1 P1 i c a none (some r2) = some (A2, P2, pg2)
      ∧ triesAt A2 c a =
          some (ans.tries.getD [] ++
            [{ player := p.name, try_result := mirrorRating r1 ans.points },
             { player := p.name, try_result := mirrorRating r2 ans.points }])
      ∧ scoreAt P2 i =
          some (p.points + ratingDelta r1 ans.points
                         + ratingDelta r2 ans.points) := by
  have hv : (0 : Int) ≤ (ans.points : Int) := Int.natCast_nonneg _
  have hd1 := ratingDelta_bounds r1 ans.points
  have hd2 := ratingDelta_bounds r2 ans.points
  obtain ⟨heq1, hpt1, hothers1, hlook1⟩ :=
    grade_step answers players i c a r1 h hp (by omega) (by omega)
  obtain ⟨heq2, hpt2, hothers2, hlook2⟩ :=
    grade_step _ _ i c a r2 hlook1 hpt1 (by simp only []; omega)
      (by simp only []; omega)
  refine ⟨_, _, _, _, _, _, heq1, heq2, ?_, ?_⟩
  · simp only [triesAt, hlook2, Option.some_bind]
    simp
  · simp only [scoreAt, hpt2]
    rfl


/-- Witness for C4: a positive then a negative grading of the same
100-point cell leave two attempts and a net score delta of zero. -/
theorem grade_twice_accumulates_witness :
    ∃ A1 P1 pg1 A2 P2 pg2,
      get_answer board1 [pA] 0 0 0 none (some Rating.positive) =
        some (A1, P1, pg1)
      ∧ get_answer A1 P1 0 0 0 none (some Rating.negative) =
          some (A2, P2, pg2)
      ∧ triesAt A2 0 0 =
          some (ans1.tries.getD [] ++
            [{ player := pA.name,
               try_result := mirrorRating Rating.positive ans1.points },
             { player := pA.name,
               try_result := mirrorRating Rating.negative ans1.points }])
      ∧ scoreAt P2 0 =
          some (pA.points + ratingDelta Rating.positive ans1.points
                          + ratingDelta Rating.negative ans1.points) :=
  grade_twice_accumulates board1 [pA] 0 0 0 Rating.positive Rating.negative
    ans1 pA (by decide) (by decide) (by decide) (by decide)

/-- Claim C5: overriding the point value of an answer and then grading it
positively awards the new value, not the catalog original, and records
the new value in the attempt outcome; when one request carries both a
rating and an override, the grading uses the value as it stood before the
override while the override lands afterwards. -/
theorem set_value_then_grade_uses_new_value (answers : Answers)
    (players : List Player) (i c a : Nat) (ans : Answer) (p : Player)
    (v : Nat) (h : lookupAnswer answers c a = some ans)
    (hp : players[i]? = some p) (_hv : v < 65536)
    (hlo : -2147483648 ≤ p.points - (v : Int))
    (hhi : p.points + (v : Int) < 2147483648)
    (hlo0 : -2147483648 ≤ p.points - (ans.points : Int))
    (hhi0 : p.points + (ans.points : Int) < 2147483648) :
    (∃ A1 pg1,
      get_answer answers players i c a (some v) none = some (A1, players, pg1)
      ∧ pointsAt A1 c a = some v
      ∧ (∃ A2 P2 pg2,
          get_answer A1 players i c a none (some Rating.positive) =
            some (A2, P2, pg2)
          ∧ scoreAt P2 i = some (p.points + (v : Int))
          ∧ triesAt A2 c a =
              some (ans.tries.getD [] ++
                [{ player := p.name,
                   try_result := AnswerResult.positive v }])))
    ∧ (∃ A3 P3 pg3,
        get_answer answers players i c a (some v) (some Rating.positive) =
          some (A3, P3, pg3)
        ∧ scoreAt P3 i = some (p.points + (ans.points : Int))
        ∧ triesAt A3 c a =
            some (ans.tries.getD [] ++
              [{ player := p.name,
                 try_result := AnswerResult.positive ans.points }])
        ∧ pointsAt A3 c a = some v) := by
  obtain ⟨hname0, hpt0, hothers0, hlen0⟩ :=
    applyRating_in_range players i ans.points Rating.positive hp hlo0 hhi0
  have hA1 : get_answer answers players i c a (some v) none =
      some (setPoints answers c a v, players, taskContent ans) := by
    rw [get_answer_eq_some answers players i c a (some v) none h]
    rfl
  have hlookA1 : lookupAnswer (setPoints answers c a v) c a =
      some { ans with points := v } := by
    rw [setPoints, lookupAnswer_updateAnswer, h]
    rfl
  obtain ⟨heq2, hpt2, hothers2, hlook2⟩ :=
    grade_step (setPoints answers c a v) players i c a Rating.positive
      hlookA1 hp (by simp only []; omega) (by simp only []; omega)
  constructor
  · refine ⟨setPoints answers c a v, taskContent ans, hA1, ?_, _, _, _,
      heq2, ?_, ?_⟩
    · simp only [pointsAt, hlookA1]
      rfl
    · simp only [scoreAt, hpt2]
      rfl
    · simp only [triesAt, hlook2]
      rfl
  · have hA3 : get_answer answers players i c a (some v)
        (some Rating.positive) =
        some (setPoints (appendTry answers c a
                { player := p.name,
                  try_result := mirrorRating Rating.positive ans.points })
              c a v,
              (applyRating players i ans.points Rating.positive).1,
              taskContent ans) := by
      rw [get_answer_eq_some answers players i c a (some v)
        (some Rating.positive) h]
      simp [answerCore, hname0]
    refine ⟨_, _, _, hA3, ?_, ?_, ?_⟩
    · simp only [scoreAt, hpt0]
      rfl
    · simp only [triesAt, setPoints, appendTry, lookupAnswer_updateAnswer, h]
      rfl
    · simp only [pointsAt, setPoints, appendTry, lookupAnswer_updateAnswer, h]
      rfl

/-- Witness for C5: overriding the 100-point cell to 300 and then grading
positively awards 300 and records Correct(300); the combined request
grades at 100 and overrides afterwards. -/
theorem set_value_then_grade_uses_new_value_witness :
    (∃ A1 pg1,
      get_answer board1 [pA] 0 0 0 (some 300) none = some (A1, [pA], pg1)
      ∧ pointsAt A1 0 0 = some 300
      ∧ (∃ A2 P2 pg2,
          get_answer A1 [pA] 0 0 0 none (some Rating.positive) =
            some (A2, P2, pg2)
          ∧ scoreAt P2 0 = some (pA.points + (300 : Int))
          ∧ triesAt A2 0 0 =
              some (ans1.tries.getD [] ++
                [{ player := pA.name,
                   try_result := AnswerResult.positive 300 }])))
    ∧ (∃ A3 P3 pg3,
        get_answer board1 [pA] 0 0 0 (some 300) (some Rating.positive) =
          some (A3, P3, pg3)
        ∧ scoreAt P3 0 = some (pA.points + (ans1.points : Int))
        ∧ triesAt A3 0 0 =
            some (ans1.tries.getD [] ++
              [{ player := pA.name,
                 try_result := AnswerResult.positive ans1.points }])
        ∧ pointsAt A3 0 0 = some 300) :=
  set_value_then_grade_uses_new_value board1 [pA] 0 0 0 ans1 pA 300
    (by decide) (by decide) (by decide) (by decide) (by decide) (by decide)
    (by decide)


/-- Claim C6: with a valid name, register succeeds exactly when the
status is Registration and fails with GameNotJoinable in the other state;
registering again from the same address with a second name appends a
second registry entry (append-only, no deduplication by address) while
the identity cache remaps the address to the newer name. -/
theorem register_gate_and_append (cache : List (String × String))
    (players : List Player) (ip n1 n2 : String)
    (h1 : is_valid_name n1 = true) (h2 : is_valid_name n2 = true) :
    register Status.BuzzerActive cache players ip n1 =
        Except.error RegisterError.GameNotJoinable
    ∧ register Status.Registration cache players ip n1 =
        Except.ok (cacheInsert cache ip n1,
          players ++ [{ name := n1, points := 0 }])
    ∧ register Status.Registration (cacheInsert cache ip n1)
        (players ++ [{ name := n1, points := 0 }]) ip n2 =
        Except.ok (cacheInsert (cacheInsert cache ip n1) ip n2,
          players ++ [{ name := n1, points := 0 },
                      { name := n2, points := 0 }])
    ∧ cacheGet (cacheInsert (cacheInsert cache ip n1) ip n2) ip =
        some n2 := by
  refine ⟨rfl, ?_, ?_, ?_⟩
  · simp [register, h1]
  · simp [register, h2]
  · simp [cacheGet, cacheInsert]

/-- Witness for C6: Alice registers while joinable, Bob cannot be blocked
from re-registering the same address, yielding two entries. -/
theorem register_gate_and_append_witness :
    register Status.BuzzerActive [] [] "10.0.0.5" "Alice" =
        Except.error RegisterError.GameNotJoinable
    ∧ register Status.Registration [] [] "10.0.0.5" "Alice" =
        Except.ok (cacheInsert [] "10.0.0.5" "Alice",
          [] ++ [{ name := "Alice", points := 0 }])
    ∧ register Status.Registration (cacheInsert [] "10.0.0.5" "Alice")
        ([] ++ [{ name := "Alice", points := 0 }]) "10.0.0.5" "Bob" =
        Except.ok (cacheInsert (cacheInsert [] "10.0.0.5" "Alice")
            "10.0.0.5" "Bob",
          [] ++ [{ name := "Alice", points := 0 },
                 { name := "Bob", points := 0 }])
    ∧ cacheGet (cacheInsert (cacheInsert [] "10.0.0.5" "Alice")
        "10.0.0.5" "Bob") "10.0.0.5" = some "Bob" :=
  register_gate_and_append [] [] "10.0.0.5" "Alice" "Bob"
    (by decide) (by decide)

/-- Claim C7: buzzing from an address absent from the identity cache
yields NotRegistered, and the outcome of buzz never depends on the
session status, which the handler does not read. -/
theorem buzz_unregistered (s : GameState) (ip : String)
    (h : cacheGet s.ip_cache ip = none) :
    buzz s ip = BuzzOutcome.NotRegistered
    ∧ ∀ st, buzz { s with status := st } ip = buzz s ip := by
  constructor
  · simp [buzz, h]
  · intro st
    rfl

/-- Witness for C7: an address that never registered buzzes against the
empty cache of the initial state. -/
theorem buzz_unregistered_witness :
    cacheGet s0.ip_cache "10.0.0.7" = none
    ∧ (buzz s0 "10.0.0.7" = BuzzOutcome.NotRegistered
       ∧ ∀ st, buzz { s0 with status := st } "10.0.0.7" =
           buzz s0 "10.0.0.7") :=
  ⟨by decide, buzz_unregistered s0 "10.0.0.7" (by decide)⟩

/-- Claim C8, code bug exhibit: the admin handler consults only the
player and setstate fields of its query (main.rs lines 340-350); the
reset field, documented in the source as resetting the entire game, is
never read, so a reset request leaves registry, identity cache, recorded
attempts, point values and status all unchanged. -/
theorem admin_reset_is_noop (s : GameState) :
    adminUpdate qReset s = s := rfl

/-- Claim C9: the admin setstate operation maps code 0 to Registration
and every other code to BuzzerActive, and applying the same code twice
yields the same state as applying it once. -/
theorem set_status_code_idempotent (code : Nat) (s : GameState) :
    ((adminUpdate (qSetState code) s).status = Status.Registration ↔
      code = 0)
    ∧ ((adminUpdate (qSetState code) s).status = Status.BuzzerActive ↔
      code ≠ 0)
    ∧ adminUpdate (qSetState code) (adminUpdate (qSetState code) s) =
        adminUpdate (qSetState code) s := by
  by_cases hc : code = 0 <;> simp [adminUpdate, qSetState, hc]

/-- Claim C10: the admin page renders Registration as status code 1 and
BuzzerActive as 0, the inverse of the encoding setstate accepts, so
setting code c from 0 or 1 renders code 1 - c. -/
theorem state_render_inverts_set_code (c : Nat) (s : GameState)
    (h : c ≤ 1) :
    stateCode (adminUpdate (qSetState c) s).status = 1 - c := by
  interval_cases c <;> simp [adminUpdate, qSetState, stateCode]

/-- Witness for C10: setting code 1 renders code 0. -/
theorem state_render_inverts_set_code_witness :
    (1 : Nat) ≤ 1
    ∧ stateCode (adminUpdate (qSetState 1) s0).status = 1 - 1 :=
  ⟨by decide, state_render_inverts_set_code 1 s0 (by decide)⟩

end OpenJeopardy
